import Mathlib

/-!
Verification of the buypower_admin wallet-provisioning core.

This file shallow-embeds the Python sources
`buypower_admin/buypower_admin/utils.py` (the `client_wallet` webhook
handler) and
`buypower_admin/buypower_admin/doctype/client_wallet/client_wallet.py`
(the `ClientWallet` document lifecycle hooks and module-level helpers)
as executable Lean definitions, and proves the spec's testable
properties about them.

The Frappe datastore is modelled as an explicit list of wallet records
plus a counter generating fresh document names; `frappe.get_all`,
`frappe.db.exists`, `frappe.delete_doc` and `frappe.db.set_value`
become list operations; `frappe.throw` becomes `Except.error`.
-/

namespace BuypowerAdmin

/-- A `Client Wallet` record, one field per doctype field touched by the
source. `name` is the Frappe document name (modelled as a `Nat` drawn
from a per-database fresh counter). Optional string fields are `none`
when the Python attribute is `None`. -/
structure Wallet where
  name : Nat
  site_name : String
  wallet_name : String
  wallet_id : Option String
  wallet_sequence : Nat
  currency : String
  account_number : Option String
  account_type : String
  bank_code : Option String
  bank_name : Option String
  business_id : Option String
  exchange_ref : Option String
  description : Option String
  bvn : Option String
  is_primary_wallet : Bool
  created_by_user : String
  deriving Repr, DecidableEq

/-- A `Wallet Log` record (append-only settlement log). -/
structure LogRecord where
  account_number : String
  transaction_id : Option String
  transaction_reference : Option String
  session_id : Option String
  amount : Option String
  status : Option String
  metadata : Option String
  deriving Repr, DecidableEq

/-- The datastore: the stored wallet records, the stored wallet-log
records, and a counter from which fresh document names are drawn. -/
structure DB where
  wallets : List Wallet
  logs : List LogRecord
  counter : Nat
  deriving Repr, DecidableEq

def DB.empty : DB := ⟨[], [], 0⟩

/-- Python truthiness of an optional string (`None` and `""` are falsy). -/
def truthy (o : Option String) : Bool := o.getD "" != ""

/-- `''.join(filter(str.isdigit, str(bvn)))` from `utils.py`. -/
def cleanDigits (s : String) : String := String.mk (s.data.filter Char.isDigit)

/-- Python `f"{n:05d}"`: decimal digits left-padded with zeros to width 5. -/
def pad5 (n : Nat) : String :=
  let s := toString n
  String.mk (List.replicate (5 - s.length) '0') ++ s

/-- Maximum existing `wallet_sequence` for a site (0 when the site has
no wallets): what the `order_by="wallet_sequence desc" limit=1` query in
`before_insert` observes. -/
def maxSeq (db : DB) (site : String) : Nat :=
  (db.wallets.filter (fun w => decide (w.site_name = site))).foldr
    (fun w m => max w.wallet_sequence m) 0

/-- `ClientWallet.before_insert`: allocate the per-site sequence
(max existing + 1, or 1 when the site has none), stamp
`created_by_user` with the session user, and derive `wallet_id` when it
is unset. -/
def before_insert (db : DB) (user : String) (doc : Wallet) : Wallet :=
  let existing := db.wallets.filter (fun w => decide (w.site_name = doc.site_name))
  let seq := if existing.isEmpty then 1
             else existing.foldr (fun w m => max w.wallet_sequence m) 0 + 1
  let d : Wallet := { doc with wallet_sequence := seq, created_by_user := user }
  if truthy d.wallet_id then d
  else { d with wallet_id := some ("WLT-" ++ d.site_name ++ "-" ++ pad5 d.wallet_sequence) }

def primaryConflictMsg (site : String) : String :=
  "A primary wallet already exists for site " ++ site ++
  ". Please uncheck 'Is Primary Wallet' or update the existing primary wallet."

/-- `ClientWallet.before_save`: reject a primary flag when another
wallet of the same site (excluding this document) is already primary;
reject a stored BVN whose length is not 11; force the primary flag on
when the document is not primary and the site currently has no wallets.
The Python method is a sequence of `if` statements whose first two arms
`frappe.throw`; the flattened `if`/`else` chain below is equivalent. -/
def before_save (db : DB) (doc : Wallet) : Except String Wallet :=
  if doc.is_primary_wallet = true ∧
      db.wallets.filter (fun w => decide (w.site_name = doc.site_name ∧
        w.is_primary_wallet = true ∧ w.name ≠ doc.name)) ≠ [] then
    .error (primaryConflictMsg doc.site_name)
  else if truthy doc.bvn = true ∧ (doc.bvn.getD "").length ≠ 11 then
    .error "BVN must be exactly 11 digits"
  else if doc.is_primary_wallet = false ∧
      db.wallets.filter (fun w => decide (w.site_name = doc.site_name)) = [] then
    .ok { doc with is_primary_wallet := true }
  else
    .ok doc

/-- `ClientWallet.validate`: reject when another wallet of the same
site (excluding this document) has the same `wallet_name`. -/
def validateDoc (db : DB) (doc : Wallet) : Except String Unit :=
  if db.wallets.filter (fun w => decide (w.site_name = doc.site_name ∧
      w.wallet_name = doc.wallet_name ∧ w.name ≠ doc.name)) ≠ [] then
    .error ("Wallet name '" ++ doc.wallet_name ++ "' already exists for site '" ++
      doc.site_name ++ "'")
  else .ok ()

/-- `doc.insert()` for a new `Client Wallet`: Frappe's insert lifecycle
runs `before_insert`, then `validate`, then `before_save`, then writes
the row. The new document receives the fresh name `db.counter`. -/
def runInsert (db : DB) (user : String) (doc0 : Wallet) :
    Except String (Wallet × DB) :=
  let d1 := before_insert db user { doc0 with name := db.counter }
  match validateDoc db d1 with
  | .error e => .error e
  | .ok _ =>
    match before_save db d1 with
    | .error e => .error e
    | .ok d2 => .ok (d2, { db with wallets := db.wallets ++ [d2],
                                   counter := db.counter + 1 })

/-- `frappe.delete_doc("Client Wallet", docname)`. -/
def delete_doc (db : DB) (docname : Nat) : DB :=
  { db with wallets := db.wallets.filter (fun w => decide (w.name ≠ docname)) }

/-- `set_primary_wallet(wallet_name, site_name)` from
`client_wallet.py`: an SQL update clearing `is_primary_wallet` on every
wallet of `site`, then `frappe.db.set_value` turning the flag on for
the document named `docname` — whatever site that document belongs to. -/
def set_primary_wallet (db : DB) (docname : Nat) (site : String) : DB :=
  let cleared := db.wallets.map (fun w =>
    if w.site_name = site then { w with is_primary_wallet := false } else w)
  { db with wallets := cleared.map (fun w =>
      if w.name = docname then { w with is_primary_wallet := true } else w) }

/-! ### The `client_wallet` webhook handler (`utils.py`) -/

/-- The `data` object of a wallet-created payload, holding exactly the
keys `client_wallet` reads with `transaction_data.get(...)`. -/
structure TxData where
  wallet_name : Option String
  site_name : Option String
  bvn : Option String
  currency : Option String
  wallet_id : Option String
  description : Option String
  account_number : Option String
  exchange_ref : Option String
  business_id : Option String
  account_type : Option String
  bank_code : Option String
  bank_name : Option String
  deriving Repr, DecidableEq

def TxData.empty : TxData :=
  ⟨none, none, none, none, none, none, none, none, none, none, none, none⟩

/-- Outcome of `json.loads(raw_data)` on the request body:
`malformed` — a `JSONDecodeError`; `jsonFalsy` — the decode succeeded
but produced a falsy value (`{}`, `null`, `false`, `0`, `""`, `[]`);
`jsonObj ev d` — a truthy JSON object whose `event` key is `ev` and
whose `data` key is `d` (`none` when absent, in which case the handler
substitutes `{}`). -/
inductive RawBody where
  | malformed
  | jsonFalsy
  | jsonObj (event : Option String) (data : Option TxData)
  deriving Repr, DecidableEq

/-- The `data` entry of `frappe.form_dict`: either a string that
re-parses as JSON (`parsed = none` when that parse raises), or an
already-structured object. -/
inductive FormDataVal where
  | jsonStr (parsed : Option TxData)
  | obj (d : TxData)
  deriving Repr, DecidableEq

/-- `frappe.form_dict`, restricted to the two keys the fallback reads;
a present `data` value is taken to be truthy. -/
structure FormDict where
  event : Option String
  data : Option FormDataVal
  deriving Repr, DecidableEq

structure Request where
  body : RawBody
  form : FormDict
  deriving Repr, DecidableEq

/-- The response dictionary returned by the handlers. -/
structure Response where
  success : Bool
  message : Option String
  error : Option String
  warning : Option String
  wallet_data : Option Wallet
  deriving Repr, DecidableEq

/-- `{"success": False, "error": e}`. -/
def errResp (e : String) : Response := ⟨false, none, some e, none, none⟩

/-- The `(wallet_name, site_name)` filter of the reconciler's
exists-check. -/
def pairP (wn sn : String) (w : Wallet) : Bool :=
  decide (w.wallet_name = wn ∧ w.site_name = sn)

/-- Python `f"...{event}..."` rendering of the extracted event value. -/
def pyStr (o : Option String) : String :=
  match o with
  | none => "None"
  | some s => s

/-- The payload-logging block of `client_wallet` (utils.py lines
64–66): `log_payload = payload.copy()` is a shallow copy, so
`log_payload["data"]` is the same dict object as `payload["data"]` and
the masking assignment rewrites the payload itself. Every truthy BVN
is therefore the literal `"***masked***"` by the time the validation
block reads it; a falsy BVN is left alone (the `if` guard fails). -/
def maskBvn (bvn : Option String) : Option String :=
  if truthy bvn then some "***masked***" else bvn

/-- The BVN block of `client_wallet` (utils.py lines 88–106): strip
non-digits; keep the cleaned value when it has exactly 11 digits,
otherwise drop it and carry a warning; do nothing when the input is
falsy. Returns `(bvn_to_save, bvn_warning)`. -/
def bvnPolicy (bvn : Option String) : Option String × Option String :=
  if truthy bvn then
    let c := cleanDigits (bvn.getD "")
    if c.length = 11 then (some c, none)
    else (none, some ("Invalid BVN provided (" ++ toString c.length ++
      " digits), wallet created without BVN"))
  else (none, none)

/-- The `wallet_data` dict built by `client_wallet` (utils.py lines
126–143), as an unsaved document: request fields with the source's
defaults, plus the BVN only when it validated. -/
def buildWalletDoc (td : TxData) (bvn_to_save : Option String) : Wallet :=
  { name := 0
    site_name := td.site_name.getD ""
    wallet_name := td.wallet_name.getD ""
    wallet_id := td.wallet_id
    wallet_sequence := 0
    currency := td.currency.getD "NGN"
    account_number := td.account_number
    account_type := td.account_type.getD "Wallet"
    bank_code := td.bank_code
    bank_name := td.bank_name
    business_id := td.business_id
    exchange_ref := td.exchange_ref
    description := td.description
    bvn := bvn_to_save
    is_primary_wallet := false
    created_by_user := "" }

/-- `client_wallet` from the point where a truthy payload is in hand
(utils.py lines 63–177): the shallow-copy logging block masks the
payload's BVN in place (`maskBvn` — the only downstream reader of the
mutated key is the BVN block, so the mutation is applied at that read),
then event and required-field checks, BVN policy on the masked value,
replace-on-reannounce delete, document insert, and the conversion of
any raised validation error into a `{success: False, error}` response
at the handler boundary. The delete is committed before the insert is
attempted, so a failing insert leaves the deletion in place. -/
def processEnvelope (event : Option String) (td : TxData) (db : DB)
    (user : String) : Response × DB :=
  if event ≠ some "wallet_created" then
    (errResp ("Invalid event type. Expected 'wallet_created', got '" ++
      pyStr event ++ "'"), db)
  else if truthy td.wallet_name = false then
    (errResp "wallet_name is required", db)
  else if truthy td.site_name = false then
    (errResp "site_name is required", db)
  else
    let wallet_name := td.wallet_name.getD ""
    let site_name := td.site_name.getD ""
    let bvn_to_save := (bvnPolicy (maskBvn td.bvn)).1
    let bvn_warning := (bvnPolicy (maskBvn td.bvn)).2
    let db1 := match db.wallets.find? (pairP wallet_name site_name) with
      | some w0 => delete_doc db w0.name
      | none => db
    match runInsert db1 user (buildWalletDoc td bvn_to_save) with
    | .error e => (errResp e, db1)
    | .ok (d, db2) =>
      ({ success := true, message := some "Wallet created successfully",
         error := none, warning := bvn_warning, wallet_data := some d }, db2)

/-- `client_wallet` (utils.py lines 20–177): try a JSON decode of the
raw body; on decode failure fall back to `frappe.form_dict` when it
carries truthy `event` and `data` keys (re-parsing a string `data`);
reject a falsy decoded payload; then process the envelope. -/
def client_wallet (req : Request) (db : DB) (user : String) : Response × DB :=
  match req.body with
  | .malformed =>
    if truthy req.form.event = true ∧ req.form.data.isSome = true then
      match req.form.data with
      | some (.jsonStr none) => (errResp "Invalid JSON in form data", db)
      | some (.jsonStr (some td)) => processEnvelope req.form.event td db user
      | some (.obj td) => processEnvelope req.form.event td db user
      | none => (errResp "Invalid request format - no event/data found", db)
    else
      (errResp "Invalid request format - no event/data found", db)
  | .jsonFalsy => (errResp "Could not parse request data", db)
  | .jsonObj ev d => processEnvelope ev (d.getD TxData.empty) db user

/-! ### The wallet-log handler (Transaction Log Relay) -/

/-- The `data` object of a settlement event, restricted to the fields
the relay uses. -/
structure LogData where
  accountNumber : Option String
  transactionId : Option String
  transactionReference : Option String
  sessionId : Option String
  amount : Option String
  status : Option String
  metadata : Option String
  deriving Repr, DecidableEq

/-- The outcome of the outbound POST to the remote admin endpoint: the
HTTP status code and the `success` flag inside the response body. -/
structure RelayResult where
  httpStatus : Nat
  bodySuccess : Bool
  deriving Repr, DecidableEq

/-- Modelled from the spec: the `POST /wallet-log` handler (spec §4.5
Transaction Log Relay and §6) is not present under `src/` — only the
spec describes it. Steps per the spec: reject when `accountNumber` is
absent; reject when no wallet has that account number; persist a
Wallet Log record; relay a summary to the remote admin endpoint,
treating HTTP 200/201 with a true body flag as success, a false body
flag as a rejection, and any other status as a failure — all relay
outcomes leaving the already-committed local log write in place. -/
def wallet_log (ld : LogData) (relay : RelayResult) (db : DB) :
    Response × DB :=
  if truthy ld.accountNumber = false then
    (errResp "accountNumber is required", db)
  else
    let acct := ld.accountNumber.getD ""
    match db.wallets.find? (fun w => decide (w.account_number = some acct)) with
    | none =>
      (errResp ("Wallet with account number " ++ acct ++ " does not exist"), db)
    | some _ =>
      let entry : LogRecord :=
        ⟨acct, ld.transactionId, ld.transactionReference, ld.sessionId,
         ld.amount, ld.status, ld.metadata⟩
      let db1 := { db with logs := db.logs ++ [entry] }
      if relay.httpStatus = 200 ∨ relay.httpStatus = 201 then
        if relay.bodySuccess then
          ({ success := true, message := some "Log relayed successfully",
             error := none, warning := none, wallet_data := none }, db1)
        else (errResp "Admin relay rejected the log", db1)
      else (errResp "Admin relay failed", db1)

/-! ### Datastore evolution -/

/-- One datastore transition: a successful wallet insertion through the
write pipeline, a document deletion (the reconciler's replace step), or
a `set_primary_wallet` call. -/
inductive Step : DB → DB → Prop where
  | insert (db : DB) (user : String) (doc0 d : Wallet) (db' : DB) :
      runInsert db user doc0 = .ok (d, db') → Step db db'
  | del (db : DB) (n : Nat) : Step db (delete_doc db n)
  | setPrimary (db : DB) (n : Nat) (site : String) :
      Step db (set_primary_wallet db n site)

/-- Like `Step`, but `set_primary_wallet` is only invoked with a
document name that belongs to the named site (the call pattern the
function's docstring describes). -/
inductive GoodStep : DB → DB → Prop where
  | insert (db : DB) (user : String) (doc0 d : Wallet) (db' : DB) :
      runInsert db user doc0 = .ok (d, db') → GoodStep db db'
  | del (db : DB) (n : Nat) : GoodStep db (delete_doc db n)
  | setPrimary (db : DB) (n : Nat) (site : String) :
      (∀ w ∈ db.wallets, w.name = n → w.site_name = site) →
      GoodStep db (set_primary_wallet db n site)

/-- States reachable from the empty datastore by `Step`s. -/
def Reachable (db : DB) : Prop := Relation.ReflTransGen Step DB.empty db

/-- States reachable from the empty datastore by `GoodStep`s. -/
def ReachableGood (db : DB) : Prop := Relation.ReflTransGen GoodStep DB.empty db

/-- Number of wallets of `site` with the primary flag set. -/
def primaryCount (db : DB) (site : String) : Nat :=
  db.wallets.countP (fun w =>
    decide (w.site_name = site ∧ w.is_primary_wallet = true))

/-- Every stored document name is below the fresh-name counter. -/
def NamesBounded (db : DB) : Prop := ∀ w ∈ db.wallets, w.name < db.counter

/-- Stored document names are pairwise distinct. -/
def NamesNodup (db : DB) : Prop := (db.wallets.map (fun w => w.name)).Nodup

/-- The wallet sequences currently stored for a site, in store order. -/
def siteSeqs (db : DB) (site : String) : List Nat :=
  (db.wallets.filter (fun w => decide (w.site_name = site))).map
    (fun w => w.wallet_sequence)

/-- The site's stored sequences are exactly `1..N` (as a multiset),
`N` being the site's wallet count. -/
def SeqInv (db : DB) (site : String) : Prop :=
  List.Perm (siteSeqs db site) (List.range' 1 (siteSeqs db site).length)

/-! ### Concrete fixtures -/

/-- A minimal unsaved wallet document for a site and wallet name. -/
def mkDoc (site wn : String) : Wallet :=
  { name := 0, site_name := site, wallet_name := wn, wallet_id := none,
    wallet_sequence := 0, currency := "NGN", account_number := none,
    account_type := "Wallet", bank_code := none, bank_name := none,
    business_id := none, exchange_ref := none, description := none,
    bvn := none, is_primary_wallet := false, created_by_user := "" }

/-- A JSON wallet-created request for a site and wallet name. -/
def walletReq (site wn : String) : Request :=
  ⟨.jsonObj (some "wallet_created")
    (some { TxData.empty with wallet_name := some wn, site_name := some site }),
   ⟨none, none⟩⟩

/-- Second projection of a successful insert, with a fallback. -/
def okDB (r : Except String (Wallet × DB)) (fallback : DB) : DB :=
  match r with
  | .ok p => p.2
  | .error _ => fallback

/-- First projection of a successful insert, with a fallback. -/
def okW (r : Except String (Wallet × DB)) (fallback : Wallet) : Wallet :=
  match r with
  | .ok p => p.1
  | .error _ => fallback

/-- Trace for the cross-site `set_primary_wallet` scenario: two wallets
inserted for site `A`, one for site `B`, then `set_primary_wallet`
called with site-`A` document 1 and site argument `"B"`. -/
def cexDB1 : DB := okDB (runInsert DB.empty "u" (mkDoc "A" "w1")) DB.empty

def cexDB2 : DB := okDB (runInsert cexDB1 "u" (mkDoc "A" "w2")) cexDB1

def cexDB3 : DB := okDB (runInsert cexDB2 "u" (mkDoc "B" "w3")) cexDB2

def cexDB4 : DB := set_primary_wallet cexDB3 1 "B"

/-- Trace for the sequence-reuse scenario: announce `w1` and `w2` for
site `A`, then re-announce `w2` (the reconciler deletes the old record
before inserting the replacement). -/
def seqDB1 : DB := (client_wallet (walletReq "A" "w1") DB.empty "u").2

def seqDB2 : DB := (client_wallet (walletReq "A" "w2") seqDB1 "u").2

def seqResp2 : Response := (client_wallet (walletReq "A" "w2") seqDB1 "u").1

def seqResp3 : Response := (client_wallet (walletReq "A" "w2") seqDB2 "u").1

/-! ### Pipeline characterization lemmas -/

lemma foldr_max_eq_maxSeq (db : DB) (site : String) :
    (db.wallets.filter (fun w => decide (w.site_name = site))).foldr
      (fun w m => max w.wallet_sequence m) 0 = maxSeq db site := rfl

lemma before_insert_eq (db : DB) (u : String) (doc : Wallet) :
    before_insert db u doc =
      if truthy doc.wallet_id then
        { doc with wallet_sequence := maxSeq db doc.site_name + 1,
                   created_by_user := u }
      else
        { doc with wallet_sequence := maxSeq db doc.site_name + 1,
                   created_by_user := u,
                   wallet_id := some ("WLT-" ++ doc.site_name ++ "-" ++
                     pad5 (maxSeq db doc.site_name + 1)) } := by
  unfold before_insert maxSeq
  rcases h : db.wallets.filter (fun w => decide (w.site_name = doc.site_name)) with _ | ⟨a, l⟩
  · simp [h]
  · simp [h]

lemma before_save_cases (db : DB) (doc d : Wallet)
    (h : before_save db doc = .ok d) :
    d = doc ∨ d = { doc with is_primary_wallet := true } := by
  unfold before_save at h
  split at h
  · exact absurd h (by simp)
  · split at h
    · exact absurd h (by simp)
    · split at h
      · right; exact (Except.ok.inj h).symm
      · left; exact (Except.ok.inj h).symm

lemma before_insert_name (db : DB) (u : String) (doc : Wallet) :
    (before_insert db u doc).name = doc.name := by
  rw [before_insert_eq]; split <;> rfl

lemma before_insert_site (db : DB) (u : String) (doc : Wallet) :
    (before_insert db u doc).site_name = doc.site_name := by
  rw [before_insert_eq]; split <;> rfl

lemma before_insert_wallet_name (db : DB) (u : String) (doc : Wallet) :
    (before_insert db u doc).wallet_name = doc.wallet_name := by
  rw [before_insert_eq]; split <;> rfl

lemma before_insert_primary (db : DB) (u : String) (doc : Wallet) :
    (before_insert db u doc).is_primary_wallet = doc.is_primary_wallet := by
  rw [before_insert_eq]; split <;> rfl

lemma before_insert_bvn (db : DB) (u : String) (doc : Wallet) :
    (before_insert db u doc).bvn = doc.bvn := by
  rw [before_insert_eq]; split <;> rfl

lemma before_insert_seq (db : DB) (u : String) (doc : Wallet) :
    (before_insert db u doc).wallet_sequence = maxSeq db doc.site_name + 1 := by
  rw [before_insert_eq]; split <;> rfl

lemma before_save_ok_name (db : DB) (doc d : Wallet)
    (h : before_save db doc = .ok d) : d.name = doc.name := by
  rcases before_save_cases db doc d h with rfl | rfl <;> rfl

lemma before_save_ok_site (db : DB) (doc d : Wallet)
    (h : before_save db doc = .ok d) : d.site_name = doc.site_name := by
  rcases before_save_cases db doc d h with rfl | rfl <;> rfl

lemma before_save_ok_wallet_name (db : DB) (doc d : Wallet)
    (h : before_save db doc = .ok d) : d.wallet_name = doc.wallet_name := by
  rcases before_save_cases db doc d h with rfl | rfl <;> rfl

lemma before_save_ok_seq (db : DB) (doc d : Wallet)
    (h : before_save db doc = .ok d) : d.wallet_sequence = doc.wallet_sequence := by
  rcases before_save_cases db doc d h with rfl | rfl <;> rfl

lemma before_save_ok_id (db : DB) (doc d : Wallet)
    (h : before_save db doc = .ok d) : d.wallet_id = doc.wallet_id := by
  rcases before_save_cases db doc d h with rfl | rfl <;> rfl

lemma before_save_ok_bvn (db : DB) (doc d : Wallet)
    (h : before_save db doc = .ok d) : d.bvn = doc.bvn := by
  rcases before_save_cases db doc d h with rfl | rfl <;> rfl

/-- Reaching `.ok` in `before_save` constrains the primary flag: either
the saved record is not primary, or the site had no other primary
wallet (conflict filter empty), or the site had no wallets at all. -/
lemma before_save_ok_primary (db : DB) (doc d : Wallet)
    (h : before_save db doc = .ok d) :
    d.is_primary_wallet = false ∨
    db.wallets.filter (fun w => decide (w.site_name = doc.site_name ∧
      w.is_primary_wallet = true ∧ w.name ≠ doc.name)) = [] ∨
    db.wallets.filter (fun w => decide (w.site_name = doc.site_name)) = [] := by
  unfold before_save at h
  split at h
  · exact absurd h (by simp)
  · split at h
    · exact absurd h (by simp)
    · split at h
      · rename_i hcond
        exact Or.inr (Or.inr hcond.2)
      · rename_i hc1 _ hc3
        have hd : d = doc := (Except.ok.inj h).symm
        subst hd
        by_cases hp : d.is_primary_wallet = true
        · refine Or.inr (Or.inl ?_)
          by_contra hne
          exact hc1 ⟨hp, hne⟩
        · exact Or.inl (Bool.not_eq_true _ ▸ hp)

/-- `before_save` raises the primary-wallet conflict exactly when the
record is primary and another wallet of the site (excluding it) is
already primary. -/
lemma before_save_conflict (db : DB) (doc : Wallet)
    (hp : doc.is_primary_wallet = true)
    (hc : db.wallets.filter (fun w => decide (w.site_name = doc.site_name ∧
      w.is_primary_wallet = true ∧ w.name ≠ doc.name)) ≠ []) :
    before_save db doc = .error (primaryConflictMsg doc.site_name) := by
  unfold before_save
  rw [if_pos ⟨hp, hc⟩]

/-- Inversion of a successful insert. -/
lemma runInsert_ok_iff (db : DB) (u : String) (doc0 d : Wallet) (db' : DB) :
    runInsert db u doc0 = .ok (d, db') ↔
      (validateDoc db (before_insert db u { doc0 with name := db.counter }) = .ok () ∧
       before_save db (before_insert db u { doc0 with name := db.counter }) = .ok d ∧
       db' = { db with wallets := db.wallets ++ [d], counter := db.counter + 1 }) := by
  rcases hv : validateDoc db (before_insert db u { doc0 with name := db.counter }) with e | u'
  · simp [runInsert, hv]
  · rcases hs : before_save db (before_insert db u { doc0 with name := db.counter }) with e | d2
    · simp [runInsert, hv, hs]
    · simp only [runInsert, hv, hs]
      constructor
      · intro h
        obtain ⟨h1, h2⟩ := Prod.mk.injEq _ _ _ _ ▸ Except.ok.inj h
        subst h1
        exact ⟨by trivial, rfl, h2.symm⟩
      · rintro ⟨-, h2, h3⟩
        have hd : d2 = d := Except.ok.inj h2
        subst hd
        rw [h3]

/-! ### Primary-wallet invariant machinery -/

lemma primaryCount_zero_of_conflict_empty (db : DB) (site : String) (n : Nat)
    (hb : ∀ w ∈ db.wallets, w.name ≠ n)
    (hc : db.wallets.filter (fun w => decide (w.site_name = site ∧
      w.is_primary_wallet = true ∧ w.name ≠ n)) = []) :
    primaryCount db site = 0 := by
  unfold primaryCount
  rw [List.countP_eq_zero]
  intro w hw hp
  have hp' := of_decide_eq_true hp
  have := (List.filter_eq_nil_iff.mp hc) w hw
  exact this (decide_eq_true ⟨hp'.1, hp'.2, hb w hw⟩)

lemma primaryCount_zero_of_site_empty (db : DB) (site : String)
    (h : db.wallets.filter (fun w => decide (w.site_name = site)) = []) :
    primaryCount db site = 0 := by
  unfold primaryCount
  rw [List.countP_eq_zero]
  intro w hw hp
  have hp' := of_decide_eq_true hp
  exact (List.filter_eq_nil_iff.mp h) w hw (decide_eq_true hp'.1)

lemma countP_name_le_one (db : DB) (hd : NamesNodup db) (n : Nat) :
    db.wallets.countP (fun w => decide (w.name = n)) ≤ 1 := by
  have h1 : db.wallets.countP (fun w => decide (w.name = n)) =
      (db.wallets.map (fun w => w.name)).count n := by
    rw [List.count_eq_countP, List.countP_map]
    exact List.countP_congr (fun w _ => by simp [Function.comp]) |>.symm
  rw [h1]
  exact List.nodup_iff_count_le_one.mp hd n

/-- A successful pipeline insert preserves the ≤ 1 primary-per-site
bound (given fresh document names). -/
lemma primaryCount_insert_le (db : DB) (u : String) (doc0 d : Wallet) (db' : DB)
    (h : runInsert db u doc0 = .ok (d, db')) (hb : NamesBounded db) (s : String)
    (hle : primaryCount db s ≤ 1) : primaryCount db' s ≤ 1 := by
  obtain ⟨-, hsave, hdb⟩ := (runInsert_ok_iff db u doc0 d db').mp h
  set d1 := before_insert db u { doc0 with name := db.counter } with hd1
  have hname : d1.name = db.counter := by rw [hd1, before_insert_name]
  have hsite : d.site_name = d1.site_name := before_save_ok_site db d1 d hsave
  subst hdb
  unfold primaryCount at *
  simp only [List.countP_append]
  by_cases hpd : (decide (d.site_name = s ∧ d.is_primary_wallet = true)) = true
  · have hpd' := of_decide_eq_true hpd
    have hzero : db.wallets.countP (fun w =>
        decide (w.site_name = s ∧ w.is_primary_wallet = true)) = 0 := by
      rcases before_save_ok_primary db d1 d hsave with hf | hc | hsemp
      · rw [hpd'.2] at hf; cases hf
      · refine primaryCount_zero_of_conflict_empty db s d1.name ?_ ?_
        · intro w hw
          have := hb w hw
          omega
        · rw [← hpd'.1, hsite]; exact hc
      · refine primaryCount_zero_of_site_empty db s ?_
        rw [← hpd'.1, hsite]; exact hsemp
    rw [hzero]
    have hlen : (List.countP (fun w => decide (w.site_name = s) && w.is_primary_wallet) [d]) ≤
        ([d] : List Wallet).length := List.countP_le_length _
    simpa using hlen
  · have : (List.countP (fun w =>
        decide (w.site_name = s ∧ w.is_primary_wallet = true)) [d]) = 0 := by
      simp only [List.countP_eq_zero, List.mem_singleton]
      rintro w rfl
      exact fun hc => hpd hc
    omega

lemma primaryCount_delete_le (db : DB) (n : Nat) (s : String)
    (hle : primaryCount db s ≤ 1) : primaryCount (delete_doc db n) s ≤ 1 := by
  unfold primaryCount delete_doc at *
  calc (db.wallets.filter (fun w => decide (w.name ≠ n))).countP
        (fun w => decide (w.site_name = s ∧ w.is_primary_wallet = true))
      ≤ db.wallets.countP
        (fun w => decide (w.site_name = s ∧ w.is_primary_wallet = true)) :=
        (List.filter_sublist _).countP_le _
    _ ≤ 1 := hle

/-- `set_primary_wallet` keeps the ≤ 1 bound for every site provided
the named document belongs to the site passed in. -/
lemma primaryCount_setPrimary_le (db : DB) (n : Nat) (site s : String)
    (hn : ∀ w ∈ db.wallets, w.name = n → w.site_name = site)
    (hd : NamesNodup db) (hle : primaryCount db s ≤ 1) :
    primaryCount (set_primary_wallet db n site) s ≤ 1 := by
  unfold primaryCount set_primary_wallet
  simp only [List.map_map, List.countP_map]
  by_cases hss : s = site
  · subst hss
    refine le_trans
      (List.countP_mono_left (q := fun w => decide (w.name = n)) ?_)
      (countP_name_le_one db hd n)
    intro w hw hpw
    simp only [Function.comp] at hpw
    by_cases hwn : w.name = n
    · exact decide_eq_true hwn
    · exfalso
      by_cases hws : w.site_name = s <;> simp [hws, hwn] at hpw
  · refine le_trans (le_of_eq (List.countP_congr ?_)) hle
    intro w hw
    simp only [Function.comp]
    by_cases hwn : w.name = n
    · have hws : w.site_name = site := hn w hw hwn
      have hns : ¬ (w.site_name = s) := by rw [hws]; exact fun h => hss h.symm
      simp [hws, hwn, hns]
      exact fun h => absurd h.symm hss
    · by_cases hws : w.site_name = site
      · have hns : ¬ (w.site_name = s) := by rw [hws]; exact fun h => hss h.symm
        simp [hws, hwn, hns]
        exact fun h => absurd h.symm hss
      · simp [hws, hwn]

lemma setPrimary_names (db : DB) (n : Nat) (site : String) :
    (set_primary_wallet db n site).wallets.map (fun w => w.name) =
      db.wallets.map (fun w => w.name) := by
  unfold set_primary_wallet
  simp only [List.map_map]
  refine List.map_congr_left ?_
  intro w hw
  simp only [Function.comp]
  by_cases h1 : w.site_name = site <;> by_cases h2 : w.name = n <;> simp [h1, h2]

lemma setPrimary_counter (db : DB) (n : Nat) (site : String) :
    (set_primary_wallet db n site).counter = db.counter := rfl

/-- The data consistency facts the primary-wallet invariant needs. -/
def GoodState (db : DB) : Prop :=
  NamesBounded db ∧ NamesNodup db ∧ ∀ s, primaryCount db s ≤ 1

lemma goodState_empty : GoodState DB.empty := by
  refine ⟨?_, ?_, ?_⟩ <;> simp [NamesBounded, NamesNodup, primaryCount, DB.empty]

lemma goodState_insert (db : DB) (u : String) (doc0 d : Wallet) (db' : DB)
    (h : runInsert db u doc0 = .ok (d, db')) (hG : GoodState db) :
    GoodState db' := by
  obtain ⟨hb, hd, hle⟩ := hG
  obtain ⟨-, hsave, hdb⟩ := (runInsert_ok_iff db u doc0 d db').mp h
  have hname : d.name = db.counter := by
    rw [before_save_ok_name db _ d hsave, before_insert_name]
  refine ⟨?_, ?_, fun s => primaryCount_insert_le db u doc0 d db' h hb s (hle s)⟩
  · intro w hw
    rw [hdb] at hw
    simp only [List.mem_append, List.mem_singleton] at hw
    rcases hw with hw | rfl
    · have := hb w hw; simp [hdb]; omega
    · simp [hdb, hname]
  · rw [hdb]
    unfold NamesNodup
    simp only [List.map_append, List.map_cons, List.map_nil]
    rw [List.nodup_append]
    refine ⟨hd, List.nodup_singleton _, ?_⟩
    intro a ha hb'
    simp only [List.mem_singleton] at hb'
    subst hb'
    simp only [List.mem_map] at ha
    obtain ⟨w, hw, hwn⟩ := ha
    have := hb w hw
    rw [hwn, hname] at this
    omega

lemma goodState_delete (db : DB) (n : Nat) (hG : GoodState db) :
    GoodState (delete_doc db n) := by
  obtain ⟨hb, hd, hle⟩ := hG
  refine ⟨?_, ?_, fun s => primaryCount_delete_le db n s (hle s)⟩
  · intro w hw
    unfold delete_doc at hw
    simp only [List.mem_filter] at hw
    exact hb w hw.1
  · unfold NamesNodup delete_doc
    exact ((List.filter_sublist _).map _).nodup hd

lemma goodState_setPrimary (db : DB) (n : Nat) (site : String)
    (hn : ∀ w ∈ db.wallets, w.name = n → w.site_name = site)
    (hG : GoodState db) : GoodState (set_primary_wallet db n site) := by
  obtain ⟨hb, hd, hle⟩ := hG
  refine ⟨?_, ?_, fun s => primaryCount_setPrimary_le db n site s hn hd (hle s)⟩
  · intro w hw
    rw [setPrimary_counter]
    have : w.name ∈ (set_primary_wallet db n site).wallets.map (fun w => w.name) :=
      List.mem_map_of_mem _ hw
    rw [setPrimary_names] at this
    simp only [List.mem_map] at this
    obtain ⟨w', hw', hwn⟩ := this
    rw [← hwn]
    exact hb w' hw'
  · unfold NamesNodup
    rw [setPrimary_names]
    exact hd

lemma goodStep_preserves (db db' : DB) (h : GoodStep db db')
    (hG : GoodState db) : GoodState db' := by
  cases h with
  | insert user doc0 d db2 hok => exact goodState_insert _ user doc0 d _ hok hG
  | del n => exact goodState_delete db n hG
  | setPrimary n site hn => exact goodState_setPrimary db n site hn hG

lemma reachableGood_goodState (db : DB) (h : ReachableGood db) : GoodState db := by
  induction h with
  | refl => exact goodState_empty
  | tail _ hstep ih => exact goodStep_preserves _ _ hstep ih

/-! ### Claim C2 -/

def cexW1 : Wallet := okW (runInsert DB.empty "u" (mkDoc "A" "w1")) (mkDoc "A" "w1")

def cexW2 : Wallet := okW (runInsert cexDB1 "u" (mkDoc "A" "w2")) (mkDoc "A" "w2")

def cexW3 : Wallet := okW (runInsert cexDB2 "u" (mkDoc "B" "w3")) (mkDoc "B" "w3")

/-- C2 counterexample: the state reached by inserting wallets `w1`,
`w2` for site `A` and `w3` for site `B` through the write pipeline and
then calling `set_primary_wallet` with site-`A` document 1 and site
argument `"B"` is reachable, yet site `A` ends with two primary
wallets — `set_primary_wallet` clears the primary flags of the named
site but sets the flag on the named document without checking which
site that document belongs to. -/
theorem C2_counterexample :
    Reachable cexDB4 ∧ ¬ (primaryCount cexDB4 "A" ≤ 1) := by
  refine ⟨?_, by decide⟩
  have h1 : Step DB.empty cexDB1 :=
    Step.insert _ "u" (mkDoc "A" "w1") cexW1 _ (by rfl)
  have h2 : Step cexDB1 cexDB2 :=
    Step.insert _ "u" (mkDoc "A" "w2") cexW2 _ (by rfl)
  have h3 : Step cexDB2 cexDB3 :=
    Step.insert _ "u" (mkDoc "B" "w3") cexW3 _ (by rfl)
  have h4 : Step cexDB3 cexDB4 := Step.setPrimary cexDB3 1 "B"
  exact Relation.ReflTransGen.head h1 (Relation.ReflTransGen.head h2
    (Relation.ReflTransGen.head h3 (Relation.ReflTransGen.single h4)))

/-- C2 (amended): in every state reachable via pipeline insertions,
deletions, and `set_primary_wallet` calls whose document belongs to the
named site, each site has at most one primary wallet; and
`before_save` fails with the primary-wallet conflict whenever the
record being saved is marked primary and another wallet of the same
site (excluding itself) is already primary. -/
theorem C2_primary_invariant :
    (∀ db, ReachableGood db → ∀ s, primaryCount db s ≤ 1) ∧
    (∀ db doc, doc.is_primary_wallet = true →
      (∃ w, w ∈ db.wallets ∧ w.site_name = doc.site_name ∧
        w.is_primary_wallet = true ∧ w.name ≠ doc.name) →
      before_save db doc = .error (primaryConflictMsg doc.site_name)) := by
  constructor
  · intro db h s
    exact (reachableGood_goodState db h).2.2 s
  · rintro db doc hp ⟨w, hw, h1, h2, h3⟩
    refine before_save_conflict db doc hp ?_
    intro hc
    exact (List.filter_eq_nil_iff.mp hc w hw) (decide_eq_true ⟨h1, h2, h3⟩)

def cexDoc9 : Wallet := { mkDoc "A" "w9" with is_primary_wallet := true, name := 7 }

/-- Witness for C2: the empty datastore is reachable and satisfies the
bound, and a concrete conflicting save fails with the conflict error. -/
theorem C2_primary_invariant_witness :
    primaryCount DB.empty "A" ≤ 1 ∧
    before_save cexDB1 cexDoc9 = .error (primaryConflictMsg "A") := by
  constructor
  · exact C2_primary_invariant.1 DB.empty Relation.ReflTransGen.refl "A"
  · exact C2_primary_invariant.2 cexDB1 cexDoc9 (by decide)
      ⟨cexW1, by decide, by decide, by decide, by decide⟩

/-! ### Successful-insert characterization -/

lemma before_insert_id (db : DB) (u : String) (doc : Wallet) :
    (before_insert db u doc).wallet_id =
      (if truthy doc.wallet_id then doc.wallet_id
       else some ("WLT-" ++ doc.site_name ++ "-" ++
         pad5 (maxSeq db doc.site_name + 1))) := by
  rw [before_insert_eq]
  by_cases h : truthy doc.wallet_id = true <;> simp [h]

lemma before_insert_attrs (db : DB) (u : String) (doc : Wallet) :
    (before_insert db u doc).currency = doc.currency ∧
    (before_insert db u doc).account_number = doc.account_number ∧
    (before_insert db u doc).account_type = doc.account_type ∧
    (before_insert db u doc).bank_code = doc.bank_code ∧
    (before_insert db u doc).bank_name = doc.bank_name ∧
    (before_insert db u doc).business_id = doc.business_id ∧
    (before_insert db u doc).exchange_ref = doc.exchange_ref ∧
    (before_insert db u doc).description = doc.description ∧
    (before_insert db u doc).created_by_user = u := by
  rw [before_insert_eq]
  split <;> exact ⟨rfl, rfl, rfl, rfl, rfl, rfl, rfl, rfl, rfl⟩

lemma before_save_ok_attrs (db : DB) (doc d : Wallet)
    (h : before_save db doc = .ok d) :
    d.currency = doc.currency ∧ d.account_number = doc.account_number ∧
    d.account_type = doc.account_type ∧ d.bank_code = doc.bank_code ∧
    d.bank_name = doc.bank_name ∧ d.business_id = doc.business_id ∧
    d.exchange_ref = doc.exchange_ref ∧ d.description = doc.description ∧
    d.created_by_user = doc.created_by_user := by
  rcases before_save_cases db doc d h with rfl | rfl <;>
    exact ⟨rfl, rfl, rfl, rfl, rfl, rfl, rfl, rfl, rfl⟩

/-- `before_save` succeeds whenever the BVN is absent or 11 digits and
either the record is not primary or the site has no other primary
wallet; the only mutation is the first-wallet auto-promotion. -/
lemma before_save_ok_of (db : DB) (doc : Wallet)
    (hbvn : truthy doc.bvn = false ∨ (doc.bvn.getD "").length = 11)
    (hprim : doc.is_primary_wallet = false ∨
      db.wallets.filter (fun w => decide (w.site_name = doc.site_name ∧
        w.is_primary_wallet = true ∧ w.name ≠ doc.name)) = []) :
    before_save db doc = .ok (if doc.is_primary_wallet = false ∧
        db.wallets.filter (fun w => decide (w.site_name = doc.site_name)) = []
      then { doc with is_primary_wallet := true } else doc) := by
  unfold before_save
  have h1 : ¬ (doc.is_primary_wallet = true ∧
      db.wallets.filter (fun w => decide (w.site_name = doc.site_name ∧
        w.is_primary_wallet = true ∧ w.name ≠ doc.name)) ≠ []) := by
    rcases hprim with hp | hc
    · rintro ⟨hpt, -⟩; rw [hp] at hpt; cases hpt
    · rintro ⟨-, hne⟩; exact hne hc
  rw [if_neg h1]
  have h2 : ¬ (truthy doc.bvn = true ∧ (doc.bvn.getD "").length ≠ 11) := by
    rcases hbvn with hb | hb
    · rintro ⟨hbt, -⟩; rw [hb] at hbt; cases hbt
    · rintro ⟨-, hne⟩; exact hne hb
  rw [if_neg h2]
  by_cases h3 : (doc.is_primary_wallet = false ∧
      db.wallets.filter (fun w => decide (w.site_name = doc.site_name)) = [])
  · rw [if_pos h3, if_pos h3]
  · rw [if_neg h3, if_neg h3]

/-- Full characterization of a successful pipeline insert in terms of
the incoming document. -/
lemma runInsert_ok_of (db : DB) (u : String) (doc0 : Wallet)
    (hval : db.wallets.filter (fun w => decide (w.site_name = doc0.site_name ∧
      w.wallet_name = doc0.wallet_name ∧ w.name ≠ db.counter)) = [])
    (hbvn : truthy doc0.bvn = false ∨ (doc0.bvn.getD "").length = 11)
    (hprim : doc0.is_primary_wallet = false ∨
      db.wallets.filter (fun w => decide (w.site_name = doc0.site_name ∧
        w.is_primary_wallet = true ∧ w.name ≠ db.counter)) = []) :
    ∃ d, runInsert db u doc0 = .ok (d,
        { db with wallets := db.wallets ++ [d], counter := db.counter + 1 }) ∧
      d.site_name = doc0.site_name ∧
      d.wallet_name = doc0.wallet_name ∧
      d.bvn = doc0.bvn ∧
      d.currency = doc0.currency ∧
      d.account_number = doc0.account_number ∧
      d.account_type = doc0.account_type ∧
      d.bank_code = doc0.bank_code ∧
      d.bank_name = doc0.bank_name ∧
      d.business_id = doc0.business_id ∧
      d.exchange_ref = doc0.exchange_ref ∧
      d.description = doc0.description ∧
      d.created_by_user = u ∧
      d.wallet_sequence = maxSeq db doc0.site_name + 1 ∧
      d.name = db.counter ∧
      d.is_primary_wallet = (if doc0.is_primary_wallet = false ∧
          db.wallets.filter (fun w => decide (w.site_name = doc0.site_name)) = []
        then true else doc0.is_primary_wallet) ∧
      d.wallet_id = (if truthy doc0.wallet_id then doc0.wallet_id
        else some ("WLT-" ++ doc0.site_name ++ "-" ++
          pad5 (maxSeq db doc0.site_name + 1))) := by
  set doc0' : Wallet := { doc0 with name := db.counter } with hdoc0'
  set d1 := before_insert db u doc0' with hd1
  have hsite : d1.site_name = doc0.site_name := by rw [hd1, before_insert_site]
  have hwn : d1.wallet_name = doc0.wallet_name := by rw [hd1, before_insert_wallet_name]
  have hnm : d1.name = db.counter := by rw [hd1, before_insert_name]
  have hbv : d1.bvn = doc0.bvn := by rw [hd1, before_insert_bvn]
  have hpr : d1.is_primary_wallet = doc0.is_primary_wallet := by
    rw [hd1, before_insert_primary]
  have hsq : d1.wallet_sequence = maxSeq db doc0.site_name + 1 := by
    rw [hd1, before_insert_seq]
  have hid : d1.wallet_id = (if truthy doc0.wallet_id then doc0.wallet_id
      else some ("WLT-" ++ doc0.site_name ++ "-" ++
        pad5 (maxSeq db doc0.site_name + 1))) := by
    rw [hd1, before_insert_id]
  have hattrs := before_insert_attrs db u doc0'
  rw [← hd1] at hattrs
  have hv : validateDoc db d1 = .ok () := by
    unfold validateDoc
    rw [if_neg]
    rw [not_not]
    simp only [hsite, hwn, hnm]
    exact hval
  have hs : before_save db d1 = .ok (if d1.is_primary_wallet = false ∧
      db.wallets.filter (fun w => decide (w.site_name = d1.site_name)) = []
    then { d1 with is_primary_wallet := true } else d1) := by
    refine before_save_ok_of db d1 ?_ ?_
    · rw [hbv]; exact hbvn
    · rcases hprim with hp | hc
      · exact Or.inl (hpr.trans hp)
      · refine Or.inr ?_
        simp only [hsite, hnm]
        exact hc
  refine ⟨_, (runInsert_ok_iff db u doc0 _ _).mpr ⟨hv, hs, rfl⟩, ?_⟩
  by_cases h3 : (d1.is_primary_wallet = false ∧
      db.wallets.filter (fun w => decide (w.site_name = d1.site_name)) = [])
  · rw [if_pos h3]
    have h3' : doc0.is_primary_wallet = false ∧
        db.wallets.filter (fun w => decide (w.site_name = doc0.site_name)) = [] := by
      refine ⟨hpr ▸ h3.1, ?_⟩
      have := h3.2
      rw [hsite] at this
      exact this
    refine ⟨hsite, hwn, hbv, hattrs.1, hattrs.2.1, hattrs.2.2.1, hattrs.2.2.2.1,
      hattrs.2.2.2.2.1, hattrs.2.2.2.2.2.1, hattrs.2.2.2.2.2.2.1,
      hattrs.2.2.2.2.2.2.2.1, hattrs.2.2.2.2.2.2.2.2, hsq, hnm, ?_, hid⟩
    rw [if_pos h3']
  · rw [if_neg h3]
    have h3' : ¬ (doc0.is_primary_wallet = false ∧
        db.wallets.filter (fun w => decide (w.site_name = doc0.site_name)) = []) := by
      intro hc
      refine h3 ⟨hpr.symm ▸ hc.1, ?_⟩
      rw [hsite]
      exact hc.2
    refine ⟨hsite, hwn, hbv, hattrs.1, hattrs.2.1, hattrs.2.2.1, hattrs.2.2.2.1,
      hattrs.2.2.2.2.1, hattrs.2.2.2.2.2.1, hattrs.2.2.2.2.2.2.1,
      hattrs.2.2.2.2.2.2.2.1, hattrs.2.2.2.2.2.2.2.2, hsq, hnm, ?_, hid⟩
    rw [if_neg h3']
    exact hpr

/-! ### Claims C5 and C6 -/

/-- Reaching `.ok` in `before_save` when the site has no wallets forces
the primary flag on. -/
lemma before_save_ok_empty_site (db : DB) (doc d : Wallet)
    (h : before_save db doc = .ok d)
    (hemp : db.wallets.filter (fun w => decide (w.site_name = doc.site_name)) = []) :
    d.is_primary_wallet = true := by
  unfold before_save at h
  split at h
  · exact absurd h (by simp)
  · split at h
    · exact absurd h (by simp)
    · split at h
      · rw [← Except.ok.inj h]
      · rename_i hc1 hc2 hc3
        have hd : d = doc := (Except.ok.inj h).symm
        subst hd
        by_cases hp : d.is_primary_wallet = true
        · exact hp
        · exact absurd ⟨Bool.not_eq_true _ ▸ hp, hemp⟩ hc3

/-- Reaching `.ok` in `before_save` with a non-primary record and a
non-empty site leaves the flag off. -/
lemma before_save_ok_nonempty_site (db : DB) (doc d : Wallet)
    (h : before_save db doc = .ok d)
    (hp : doc.is_primary_wallet = false)
    (hne : db.wallets.filter (fun w => decide (w.site_name = doc.site_name)) ≠ []) :
    d.is_primary_wallet = false := by
  unfold before_save at h
  split at h
  · exact absurd h (by simp)
  · split at h
    · exact absurd h (by simp)
    · split at h
      · rename_i hc
        exact absurd hc.2 hne
      · rw [← Except.ok.inj h]
        exact hp

/-- C5: whenever a wallet is inserted through the write pipeline into a
site that has zero wallets, the stored record ends primary with
sequence 1 — whatever `is_primary_wallet` the input carried; and
whenever a second wallet that does not request primary is subsequently
inserted for that site, it ends non-primary with sequence 2. -/
theorem C5_first_wallet_auto_primary (db db1 db2 : DB) (u1 u2 : String)
    (d1 d2 w1 w2 : Wallet) (s : String)
    (hempty : db.wallets.filter (fun w => decide (w.site_name = s)) = [])
    (hs1 : d1.site_name = s)
    (h1 : runInsert db u1 d1 = .ok (w1, db1))
    (hs2 : d2.site_name = s) (hp2 : d2.is_primary_wallet = false)
    (h2 : runInsert db1 u2 d2 = .ok (w2, db2)) :
    w1.is_primary_wallet = true ∧ w1.wallet_sequence = 1 ∧
    w2.is_primary_wallet = false ∧ w2.wallet_sequence = 2 := by
  have hmax0 : maxSeq db s = 0 := by unfold maxSeq; rw [hempty]; rfl
  obtain ⟨-, hsave1, hdb1⟩ := (runInsert_ok_iff db u1 d1 w1 db1).mp h1
  have hsite1 : w1.site_name = s := by
    rw [before_save_ok_site db _ w1 hsave1, before_insert_site]
    exact hs1
  have hw1prim : w1.is_primary_wallet = true := by
    refine before_save_ok_empty_site db _ w1 hsave1 ?_
    rw [before_insert_site]
    show db.wallets.filter (fun w => decide (w.site_name = d1.site_name)) = []
    rw [hs1]
    exact hempty
  have hw1seq : w1.wallet_sequence = 1 := by
    rw [before_save_ok_seq db _ w1 hsave1, before_insert_seq]
    show maxSeq db d1.site_name + 1 = 1
    rw [hs1, hmax0]
  have hfilter1 : db1.wallets.filter (fun w => decide (w.site_name = s)) = [w1] := by
    rw [hdb1]
    show (db.wallets ++ [w1]).filter (fun w => decide (w.site_name = s)) = [w1]
    rw [List.filter_append, hempty]
    simp [hsite1]
  have hmax1 : maxSeq db1 s = 1 := by
    unfold maxSeq
    rw [hfilter1]
    simp [hw1seq]
  obtain ⟨-, hsave2, hdb2⟩ := (runInsert_ok_iff db1 u2 d2 w2 db2).mp h2
  have hw2prim : w2.is_primary_wallet = false := by
    refine before_save_ok_nonempty_site db1 _ w2 hsave2 ?_ ?_
    · rw [before_insert_primary]
      exact hp2
    · rw [before_insert_site]
      show db1.wallets.filter (fun w => decide (w.site_name = d2.site_name)) ≠ []
      rw [hs2, hfilter1]
      exact fun hc => List.cons_ne_nil _ _ hc
  have hw2seq : w2.wallet_sequence = 2 := by
    rw [before_save_ok_seq db1 _ w2 hsave2, before_insert_seq]
    show maxSeq db1 d2.site_name + 1 = 2
    rw [hs2, hmax1]
  exact ⟨hw1prim, hw1seq, hw2prim, hw2seq⟩

/-- Witness for C5: concrete two-insert run for an empty site, the
first wallet requesting `is_primary_wallet = true`. -/
theorem C5_first_wallet_auto_primary_witness :
    (okW (runInsert DB.empty "u" { mkDoc "A" "w1" with is_primary_wallet := true })
      (mkDoc "A" "w1")).is_primary_wallet = true ∧
    (okW (runInsert DB.empty "u" { mkDoc "A" "w1" with is_primary_wallet := true })
      (mkDoc "A" "w1")).wallet_sequence = 1 ∧
    (okW (runInsert (okDB (runInsert DB.empty "u"
        { mkDoc "A" "w1" with is_primary_wallet := true }) DB.empty) "u"
      (mkDoc "A" "w2")) (mkDoc "A" "w2")).is_primary_wallet = false ∧
    (okW (runInsert (okDB (runInsert DB.empty "u"
        { mkDoc "A" "w1" with is_primary_wallet := true }) DB.empty) "u"
      (mkDoc "A" "w2")) (mkDoc "A" "w2")).wallet_sequence = 2 :=
  C5_first_wallet_auto_primary DB.empty
    (okDB (runInsert DB.empty "u"
      { mkDoc "A" "w1" with is_primary_wallet := true }) DB.empty)
    (okDB (runInsert (okDB (runInsert DB.empty "u"
        { mkDoc "A" "w1" with is_primary_wallet := true }) DB.empty) "u"
      (mkDoc "A" "w2"))
      DB.empty)
    "u" "u" { mkDoc "A" "w1" with is_primary_wallet := true } (mkDoc "A" "w2")
    (okW (runInsert DB.empty "u"
      { mkDoc "A" "w1" with is_primary_wallet := true }) (mkDoc "A" "w1"))
    (okW (runInsert (okDB (runInsert DB.empty "u"
        { mkDoc "A" "w1" with is_primary_wallet := true }) DB.empty) "u"
      (mkDoc "A" "w2")) (mkDoc "A" "w2"))
    "A" rfl rfl (by rfl) rfl rfl (by rfl)

/-- C6: a pipeline insert whose incoming document carries no
`wallet_id` stores `WLT-{site_name}-{sequence:05d}`. -/
theorem C6_wallet_id_format (db : DB) (u : String) (doc0 d : Wallet) (db' : DB)
    (hid : truthy doc0.wallet_id = false)
    (h : runInsert db u doc0 = .ok (d, db')) :
    d.wallet_id = some ("WLT-" ++ d.site_name ++ "-" ++ pad5 d.wallet_sequence) ∧
    d ∈ db'.wallets := by
  obtain ⟨-, hsave, hdb⟩ := (runInsert_ok_iff db u doc0 d db').mp h
  set doc0' : Wallet := { doc0 with name := db.counter } with hdoc0'
  set d1 := before_insert db u doc0' with hd1
  have hid' : truthy doc0'.wallet_id = false := hid
  have h1 : d.wallet_id = d1.wallet_id := before_save_ok_id db d1 d hsave
  have h2 : d.site_name = d1.site_name := before_save_ok_site db d1 d hsave
  have h3 : d.wallet_sequence = d1.wallet_sequence := before_save_ok_seq db d1 d hsave
  constructor
  · rw [h1, h2, h3, hd1, before_insert_id, before_insert_site, before_insert_seq]
    rw [if_neg (by rw [hid']; exact fun hc => Bool.false_ne_true hc)]
  · rw [hdb]
    simp

/-- Witness for C6: concrete insert with no supplied `wallet_id`. -/
theorem C6_wallet_id_format_witness :
    ∃ p, runInsert DB.empty "u" (mkDoc "A" "w1") = .ok p ∧
      p.1.wallet_id = some ("WLT-" ++ p.1.site_name ++ "-" ++
        pad5 p.1.wallet_sequence) ∧ p.1 ∈ p.2.wallets := by
  refine ⟨(cexW1, cexDB1), by rfl, ?_⟩
  exact C6_wallet_id_format DB.empty "u" (mkDoc "A" "w1") cexW1 cexDB1 rfl (by rfl)

/-! ### Claim C3: sequence allocation -/

lemma foldr_max_init (b : Nat) (l : List Nat) :
    l.foldr max b = max b (l.foldr max 0) := by
  induction l with
  | nil => simp
  | cons a l ih => simp only [List.foldr_cons, ih, Nat.max_left_comm]

lemma maxSeq_eq_foldr (db : DB) (s : String) :
    maxSeq db s = (siteSeqs db s).foldr max 0 := by
  unfold maxSeq siteSeqs
  rw [List.foldr_map]

lemma foldr_max_perm (l l' : List Nat) (h : List.Perm l l') :
    l.foldr max 0 = l'.foldr max 0 := by
  induction h with
  | nil => rfl
  | cons a _ ih => simp [ih]
  | swap a b l => simp [Nat.max_left_comm]
  | trans _ _ ih1 ih2 => rw [ih1, ih2]

lemma foldr_max_range (k : Nat) : ((List.range' 1 k).foldr max 0) = k := by
  induction k with
  | zero => rfl
  | succ n ih =>
    rw [List.range'_1_concat, List.foldr_append, List.foldr_cons, List.foldr_nil,
      foldr_max_init, ih]
    omega

/-- A successful pipeline insert allocates `maxSeq + 1` and preserves
the per-site `1..N` sequence invariant. -/
lemma seqInv_insert (db : DB) (u : String) (doc0 d : Wallet) (db' : DB)
    (h : runInsert db u doc0 = .ok (d, db')) :
    d.wallet_sequence = maxSeq db d.site_name + 1 ∧
    (SeqInv db d.site_name → SeqInv db' d.site_name) := by
  obtain ⟨-, hsave, hdb⟩ := (runInsert_ok_iff db u doc0 d db').mp h
  set doc0' : Wallet := { doc0 with name := db.counter } with hdoc0'
  set d1 := before_insert db u doc0' with hd1
  have hsite : d.site_name = doc0.site_name := by
    rw [before_save_ok_site db d1 d hsave, hd1, before_insert_site]
  have hdseq : d.wallet_sequence = maxSeq db d.site_name + 1 := by
    rw [before_save_ok_seq db d1 d hsave, hd1, before_insert_seq, hsite]
  refine ⟨hdseq, fun hinv => ?_⟩
  have hseqs : siteSeqs db' d.site_name =
      siteSeqs db d.site_name ++ [d.wallet_sequence] := by
    rw [hdb]
    unfold siteSeqs
    show ((db.wallets ++ [d]).filter _).map _ = _
    rw [List.filter_append]
    simp
  have hmax : maxSeq db d.site_name = (siteSeqs db d.site_name).length := by
    rw [maxSeq_eq_foldr, foldr_max_perm _ _ hinv, foldr_max_range]
  unfold SeqInv at hinv ⊢
  rw [hseqs, List.length_append, List.length_singleton, List.range'_1_concat]
  refine List.Perm.append hinv ?_
  rw [hdseq, hmax]
  have : 1 + (siteSeqs db d.site_name).length =
      (siteSeqs db d.site_name).length + 1 := Nat.add_comm _ _
  rw [this]

/-- C3 counterexample: announce `w1` then `w2` for site `A` (sequences
1 and 2), then re-announce `w2`: the reconciler deletes the existing
record holding the site's maximum sequence 2, and the replacement
record is assigned sequence 2 again — a previously assigned sequence
number is reused, so assigned sequences are not strictly increasing
over the site's history. -/
theorem C3_counterexample :
    seqResp2.success = true ∧ seqResp3.success = true ∧
    seqResp2.wallet_data.map (fun w => w.site_name) = some "A" ∧
    seqResp3.wallet_data.map (fun w => w.site_name) = some "A" ∧
    seqResp2.wallet_data.map (fun w => w.wallet_sequence) = some 2 ∧
    seqResp3.wallet_data.map (fun w => w.wallet_sequence) = some 2 := by
  exact ⟨by rfl, by rfl, by rfl, by rfl, by rfl, by rfl⟩

/-- C3 (amended): `wallet_sequence` is assigned exactly once at
creation as 1 + the site's maximum existing sequence (1 when the site
has none, `maxSeq` being 0 there), and any run of sequential creations
with no intervening deletions keeps the site's stored sequences exactly
`1..N`; a deletion of the highest-sequence wallet (as in
replace-on-reannounce) allows that sequence number to be assigned
again. -/
theorem C3_sequence_allocation :
    (∀ db u doc0 d db', runInsert db u doc0 = .ok (d, db') →
      d.wallet_sequence = maxSeq db d.site_name + 1 ∧
      (SeqInv db d.site_name → SeqInv db' d.site_name)) ∧
    (∀ s, SeqInv DB.empty s) := by
  refine ⟨fun db u doc0 d db' h => seqInv_insert db u doc0 d db' h, fun s => ?_⟩
  unfold SeqInv siteSeqs DB.empty
  simp

/-- Witness for C3: concrete first insert, with the invariant carried
to the resulting state. -/
theorem C3_sequence_allocation_witness :
    cexW1.wallet_sequence = maxSeq DB.empty cexW1.site_name + 1 ∧
    SeqInv cexDB1 cexW1.site_name :=
  ⟨(C3_sequence_allocation.1 DB.empty "u" (mkDoc "A" "w1") cexW1 cexDB1 (by rfl)).1,
   (C3_sequence_allocation.1 DB.empty "u" (mkDoc "A" "w1") cexW1 cexDB1 (by rfl)).2
     (C3_sequence_allocation.2 cexW1.site_name)⟩

/-! ### Handler success path -/

lemma bvnPolicy_fst_spec (o : Option String) :
    (bvnPolicy o).1 = none ∨
    ∃ c, (bvnPolicy o).1 = some c ∧ c.length = 11 := by
  unfold bvnPolicy
  by_cases h : truthy o = true
  · by_cases h2 : (cleanDigits (o.getD "")).length = 11
    · exact Or.inr ⟨cleanDigits (o.getD ""), by simp [h, h2], h2⟩
    · exact Or.inl (by simp [h, h2])
  · exact Or.inl (by simp [h])

/-- Two wallets matching the same `(wallet_name, site_name)` pair are
equal when the pair count is at most one. -/
lemma pair_unique (l : List Wallet) (wn sn : String)
    (hpair : l.countP (pairP wn sn) ≤ 1) (w w' : Wallet)
    (hw : w ∈ l) (hw' : w' ∈ l)
    (hp : w.wallet_name = wn ∧ w.site_name = sn)
    (hp' : w'.wallet_name = wn ∧ w'.site_name = sn) : w = w' := by
  rw [List.countP_eq_length_filter] at hpair
  interval_cases h : (l.filter (pairP wn sn)).length
  · rw [List.length_eq_zero] at h
    have := List.filter_eq_nil_iff.mp h w hw
    exact absurd (decide_eq_true hp) this
  · obtain ⟨a, ha⟩ := List.length_eq_one.mp h
    have h1 : w ∈ l.filter (pairP wn sn) :=
      List.mem_filter.mpr ⟨hw, decide_eq_true hp⟩
    have h2 : w' ∈ l.filter (pairP wn sn) :=
      List.mem_filter.mpr ⟨hw', decide_eq_true hp'⟩
    rw [ha, List.mem_singleton] at h1 h2
    rw [h1, h2]

/-- A successful run of the wallet-created envelope: with the event
correct, both required fields truthy, and at most one existing wallet
for the announced pair, the handler succeeds, and the inserted record
carries the announced attributes and the BVN policy's outcome. -/
lemma processEnvelope_success (db : DB) (u : String) (td : TxData)
    (hwn : truthy td.wallet_name = true) (hsn : truthy td.site_name = true)
    (hpair : db.wallets.countP
      (pairP (td.wallet_name.getD "") (td.site_name.getD "")) ≤ 1) :
    ∃ d db1, processEnvelope (some "wallet_created") td db u =
      ({ success := true, message := some "Wallet created successfully",
         error := none, warning := (bvnPolicy (maskBvn td.bvn)).2,
         wallet_data := some d },
       { db1 with wallets := db1.wallets ++ [d], counter := db1.counter + 1 }) ∧
      (db1 = db ∨ ∃ w0, db.wallets.find?
          (pairP (td.wallet_name.getD "") (td.site_name.getD "")) = some w0 ∧
          db1 = delete_doc db w0.name) ∧
      (∀ w ∈ db1.wallets, ¬ (w.wallet_name = td.wallet_name.getD "" ∧
        w.site_name = td.site_name.getD "")) ∧
      db1.counter = db.counter ∧
      db1.logs = db.logs ∧
      d.bvn = (bvnPolicy (maskBvn td.bvn)).1 ∧
      d.wallet_name = td.wallet_name.getD "" ∧
      d.site_name = td.site_name.getD "" ∧
      d.currency = td.currency.getD "NGN" ∧
      d.account_number = td.account_number ∧
      d.account_type = td.account_type.getD "Wallet" ∧
      d.bank_code = td.bank_code ∧
      d.bank_name = td.bank_name ∧
      d.business_id = td.business_id ∧
      d.exchange_ref = td.exchange_ref ∧
      d.description = td.description ∧
      d.name = db.counter := by
  set wn := td.wallet_name.getD "" with hwndef
  set sn := td.site_name.getD "" with hsndef
  set db1 : DB := (match db.wallets.find? (pairP wn sn) with
    | some w0 => delete_doc db w0.name
    | none => db) with hdb1
  have hcounter : db1.counter = db.counter := by
    rw [hdb1]
    rcases db.wallets.find? (pairP wn sn) with _ | w0 <;> rfl
  have hnopair : ∀ w ∈ db1.wallets, ¬ (w.wallet_name = wn ∧ w.site_name = sn) := by
    rw [hdb1]
    rcases hfind : db.wallets.find? (pairP wn sn) with _ | w0
    · intro w hw hp
      have := List.find?_eq_none.mp hfind w hw
      exact this (decide_eq_true hp)
    · intro w hw hp
      unfold delete_doc at hw
      simp only [List.mem_filter] at hw
      have hne : w.name ≠ w0.name := of_decide_eq_true hw.2
      have hp0' : pairP wn sn w0 = true := List.find?_some hfind
      have hp0 : w0.wallet_name = wn ∧ w0.site_name = sn := of_decide_eq_true hp0'
      exact hne (congrArg Wallet.name
        (pair_unique db.wallets wn sn hpair w w0 hw.1
          (List.mem_of_find?_eq_some hfind) hp hp0))
  set doc0 : Wallet := buildWalletDoc td (bvnPolicy (maskBvn td.bvn)).1 with hdoc0
  have hdsite : doc0.site_name = sn := rfl
  have hdwn : doc0.wallet_name = wn := rfl
  obtain ⟨d, hok, hsite', hwn', hbvn', hcur', hacc', hat', hbc', hbn', hbi', hex',
      hdesc', huser', hseq', hname', hprim', hid'⟩ :=
    runInsert_ok_of db1 u doc0
      (by
        rw [List.filter_eq_nil_iff]
        intro w hw hc
        obtain ⟨h1, h2, -⟩ := of_decide_eq_true hc
        exact hnopair w hw ⟨h2.trans hdwn, h1.trans hdsite⟩)
      (by
        rcases bvnPolicy_fst_spec (maskBvn td.bvn) with hb | ⟨c, hb, hlen⟩
        · refine Or.inl ?_
          show truthy (bvnPolicy (maskBvn td.bvn)).1 = false
          rw [hb]; rfl
        · refine Or.inr ?_
          show ((bvnPolicy (maskBvn td.bvn)).1.getD "").length = 11
          rw [hb]; exact hlen)
      (Or.inl rfl)
  have hlogs : db1.logs = db.logs := by
    rw [hdb1]
    rcases db.wallets.find? (pairP wn sn) with _ | w0 <;> rfl
  refine ⟨d, db1, ?_, ?_, hnopair, hcounter, hlogs, hbvn', hwn'.trans hdwn,
    hsite'.trans hdsite, hcur', hacc', hat', hbc', hbn', hbi', hex', hdesc',
    hname'.trans hcounter⟩
  · unfold processEnvelope
    rw [if_neg (fun hc => hc rfl)]
    rw [if_neg (by simp [hwn])]
    rw [if_neg (by simp [hsn])]
    simp only [← hwndef, ← hsndef, ← hdb1, ← hdoc0, hok]
  · rw [hdb1]
    rcases hfind : db.wallets.find? (pairP wn sn) with _ | w0
    · exact Or.inl rfl
    · exact Or.inr ⟨w0, rfl, rfl⟩

/-! ### Claims C1 and C7: BVN policy through the handler -/

lemma bvnPolicy_valid (b : String) (hlen : (cleanDigits b).length = 11) :
    bvnPolicy (some b) = (some (cleanDigits b), none) := by
  have hbne : b ≠ "" := by
    intro h
    rw [h] at hlen
    exact absurd hlen (by decide)
  unfold bvnPolicy
  have ht : truthy (some b) = true := by
    unfold truthy
    simpa using hbne
  rw [if_pos ht]
  simp [hlen]

lemma bvnPolicy_invalid (b : String) (hne : b ≠ "")
    (hlen : (cleanDigits b).length ≠ 11) :
    bvnPolicy (some b) = (none, some ("Invalid BVN provided (" ++
      toString (cleanDigits b).length ++ " digits), wallet created without BVN")) := by
  unfold bvnPolicy
  have ht : truthy (some b) = true := by
    unfold truthy
    simpa using hne
  rw [if_pos ht]
  simp [hlen]

/-- With a truthy BVN, the masked value the validation block sees
cleans to the empty string, so nothing is stored and the warning names
0 digits. -/
lemma bvnPolicy_masked (b : String) (hne : b ≠ "") :
    bvnPolicy (maskBvn (some b)) =
      (none, some "Invalid BVN provided (0 digits), wallet created without BVN") := by
  unfold maskBvn
  rw [if_pos (show truthy (some b) = true by unfold truthy; simpa using hne)]
  rfl

/-- The spec's C1 example request: an identity number that cleans to
exactly 11 digits, announced for a fresh site. -/
def c1FailReq : Request :=
  ⟨.jsonObj (some "wallet_created")
    (some { TxData.empty with
      wallet_name := some "Main",
      site_name := some "shop1",
      bvn := some "123-456-789-01" }),
   ⟨none, none⟩⟩

def c1FailResp : Response := (client_wallet c1FailReq DB.empty "u").1

def c1FailDB : DB := (client_wallet c1FailReq DB.empty "u").2

/-- C1 (code bug): `"123-456-789-01"` cleans to 11 digits, so the
claim — and the BVN block's own comments and `BVN Valid` logging —
expect the cleaned value to be stored on the record; but
`payload.copy()` in the logging block (utils.py lines 64–66) is a
shallow copy, so masking `log_payload["data"]["bvn"]` rewrites the
payload itself before validation: the handler stores no BVN and the
success response carries a 0-digit invalid-BVN warning. -/
theorem C1_masking_bug :
    (cleanDigits "123-456-789-01").length = 11 ∧
    c1FailResp.success = true ∧
    c1FailResp.wallet_data.map (fun w => w.bvn) = some none ∧
    c1FailResp.warning =
      some "Invalid BVN provided (0 digits), wallet created without BVN" ∧
    c1FailDB.wallets.map (fun w => w.bvn) = [none] :=
  ⟨by decide, by rfl, by rfl, by rfl, by rfl⟩

/-- C7: a wallet-created request whose identity number cleans to a
non-empty value of the wrong length still creates the wallet, stores
no identity number, and succeeds with a warning describing the invalid
identity number. (The warning always reports 0 digits: the logging
block has already masked the payload's BVN in place.) -/
theorem C7_invalid_bvn_warning (db : DB) (u : String) (td : TxData) (f : FormDict)
    (b : String)
    (hwn : truthy td.wallet_name = true) (hsn : truthy td.site_name = true)
    (hb : td.bvn = some b) (hclean : cleanDigits b ≠ "")
    (hlen : (cleanDigits b).length ≠ 11)
    (hpair : db.wallets.countP
      (pairP (td.wallet_name.getD "") (td.site_name.getD "")) ≤ 1) :
    ∃ d db', client_wallet ⟨.jsonObj (some "wallet_created") (some td), f⟩ db u =
      ({ success := true, message := some "Wallet created successfully",
         error := none,
         warning :=
           some "Invalid BVN provided (0 digits), wallet created without BVN",
         wallet_data := some d }, db') ∧
      d.bvn = none ∧ d ∈ db'.wallets := by
  have hne : b ≠ "" := by
    intro h
    rw [h] at hclean
    exact hclean rfl
  obtain ⟨d, db1, hrun, -, -, -, -, hbvn, -⟩ :=
    processEnvelope_success db u td hwn hsn hpair
  refine ⟨d, ⟨db1.wallets ++ [d], db1.logs, db1.counter + 1⟩, ?_, ?_, ?_⟩
  · show processEnvelope (some "wallet_created") td db u = _
    rw [hrun, hb, bvnPolicy_masked b hne]
  · rw [hbvn, hb, bvnPolicy_masked b hne]
  · simp

/-- Witness for C7: the spec's example 10-digit input `"1234567890"`. -/
theorem C7_invalid_bvn_warning_witness :
    ∃ d db', client_wallet ⟨.jsonObj (some "wallet_created")
        (some { TxData.empty with
          wallet_name := some "Main",
          site_name := some "shop1",
          bvn := some "1234567890" }),
      ⟨none, none⟩⟩ DB.empty "u" =
      ({ success := true, message := some "Wallet created successfully",
         error := none,
         warning :=
           some "Invalid BVN provided (0 digits), wallet created without BVN",
         wallet_data := some d }, db') ∧
      d.bvn = none ∧ d ∈ db'.wallets :=
  C7_invalid_bvn_warning DB.empty "u"
    { TxData.empty with
      wallet_name := some "Main",
      site_name := some "shop1",
      bvn := some "1234567890" }
    ⟨none, none⟩ "1234567890" (by decide) (by decide) rfl (by decide) (by decide)
    (by decide)

/-! ### Claim C4: replace-on-reannounce -/

lemma name_unique (l : List Wallet) (h : (l.map (fun w => w.name)).Nodup)
    (w w' : Wallet) (hw : w ∈ l) (hw' : w' ∈ l) (he : w.name = w'.name) :
    w = w' :=
  List.inj_on_of_nodup_map h hw hw' he

/-- C4: re-announcing an existing `(site, wallet_name)` pair succeeds
and leaves exactly one record for the pair — the freshly inserted one,
bearing the new announcement's attributes; every other record is left
exactly as it was, and the store size is unchanged (one delete plus one
insert). -/
theorem C4_reannounce_replaces (db : DB) (u : String) (td : TxData) (f : FormDict)
    (hwn : truthy td.wallet_name = true) (hsn : truthy td.site_name = true)
    (hpair : db.wallets.countP
      (pairP (td.wallet_name.getD "") (td.site_name.getD "")) = 1)
    (hnodup : NamesNodup db) (hbound : NamesBounded db) :
    ∃ d db', client_wallet ⟨.jsonObj (some "wallet_created") (some td), f⟩ db u =
      ({ success := true, message := some "Wallet created successfully",
         error := none, warning := (bvnPolicy (maskBvn td.bvn)).2,
         wallet_data := some d }, db') ∧
      db'.wallets.countP
        (pairP (td.wallet_name.getD "") (td.site_name.getD "")) = 1 ∧
      (∀ w ∈ db'.wallets,
        pairP (td.wallet_name.getD "") (td.site_name.getD "") w = true → w = d) ∧
      d.wallet_name = td.wallet_name.getD "" ∧
      d.site_name = td.site_name.getD "" ∧
      d.currency = td.currency.getD "NGN" ∧
      d.account_number = td.account_number ∧
      d.account_type = td.account_type.getD "Wallet" ∧
      d.bank_code = td.bank_code ∧
      d.bank_name = td.bank_name ∧
      d.business_id = td.business_id ∧
      d.exchange_ref = td.exchange_ref ∧
      d.description = td.description ∧
      d.bvn = (bvnPolicy (maskBvn td.bvn)).1 ∧
      (∀ w ∈ db.wallets, w.name ≠ d.name) ∧
      db'.wallets.filter (fun w =>
        !(pairP (td.wallet_name.getD "") (td.site_name.getD "") w)) =
        db.wallets.filter (fun w =>
          !(pairP (td.wallet_name.getD "") (td.site_name.getD "") w)) ∧
      db'.wallets.length = db.wallets.length := by
  set wn := td.wallet_name.getD "" with hwndef
  set sn := td.site_name.getD "" with hsndef
  obtain ⟨d, db1, hrun, hdb1or, hnopair, hcounter, hlogs, hbvn, hdwn, hdsn,
      hcur, hacc, hat, hbc, hbn, hbi, hex, hdesc, hdname⟩ :=
    processEnvelope_success db u td hwn hsn (le_of_eq hpair)
  have hex0 : ∃ w ∈ db.wallets, pairP wn sn w = true := by
    rw [← List.one_le_countP_iff, hpair]
  obtain ⟨w0, hfind, hdb1⟩ : ∃ w0, db.wallets.find? (pairP wn sn) = some w0 ∧
      db1 = delete_doc db w0.name := by
    rcases hdb1or with hd | hd
    · exfalso
      obtain ⟨w, hw, hp⟩ := hex0
      exact hnopair w (hd ▸ hw) (of_decide_eq_true hp)
    · exact hd
  have hw0mem : w0 ∈ db.wallets := List.mem_of_find?_eq_some hfind
  have hp0 : pairP wn sn w0 = true := List.find?_some hfind
  have hpd : pairP wn sn d = true := decide_eq_true ⟨hdwn, hdsn⟩
  have hzero1 : db1.wallets.countP (pairP wn sn) = 0 := by
    rw [List.countP_eq_zero]
    intro w hw hp
    exact hnopair w hw (of_decide_eq_true hp)
  refine ⟨d, ⟨db1.wallets ++ [d], db1.logs, db1.counter + 1⟩, ?_, ?_, ?_, hdwn,
    hdsn, hcur, hacc, hat, hbc, hbn, hbi, hex, hdesc, hbvn, ?_, ?_, ?_⟩
  · show processEnvelope (some "wallet_created") td db u = _
    rw [hrun]
  · show (db1.wallets ++ [d]).countP (pairP wn sn) = 1
    rw [List.countP_append, hzero1, List.countP_singleton, if_pos hpd]
  · intro w hw hp
    rcases List.mem_append.mp hw with hw1 | hw1
    · exact absurd (of_decide_eq_true hp) (hnopair w hw1)
    · exact List.mem_singleton.mp hw1
  · intro w hw he
    have := hbound w hw
    rw [hdname] at he
    omega
  · show (db1.wallets ++ [d]).filter (fun w => !(pairP wn sn w)) = _
    rw [List.filter_append]
    have h1 : [d].filter (fun w => !(pairP wn sn w)) = [] := by
      simp [hpd]
    rw [h1, List.append_nil]
    rw [hdb1]
    show (db.wallets.filter (fun w => decide (w.name ≠ w0.name))).filter
      (fun w => !(pairP wn sn w)) = _
    rw [List.filter_filter]
    refine List.filter_congr ?_
    intro w hw
    by_cases hp : pairP wn sn w = true
    · simp [hp]
    · have hne : w.name ≠ w0.name := by
        intro he
        exact hp (name_unique db.wallets hnodup w w0 hw hw0mem he ▸ hp0)
      simp [hp, hne]
  · show (db1.wallets ++ [d]).length = db.wallets.length
    rw [List.length_append, List.length_singleton]
    have hcnt : db.wallets.countP (fun w => decide (w.name = w0.name)) = 1 := by
      refine le_antisymm (countP_name_le_one db hnodup w0.name) ?_
      rw [List.one_le_countP_iff]
      exact ⟨w0, hw0mem, decide_eq_true rfl⟩
    have hsplit : db.wallets.length =
        db.wallets.countP (fun w => decide (w.name = w0.name)) +
        db.wallets.countP (fun w => decide (w.name ≠ w0.name)) := by
      have h0 := List.length_eq_countP_add_countP
        (p := fun w => decide (w.name = w0.name)) db.wallets
      rw [h0]
      congr 1
      exact List.countP_congr (fun w _ => by simp)
    have hlen1 : db1.wallets.length =
        db.wallets.countP (fun w => decide (w.name ≠ w0.name)) := by
      rw [hdb1]
      show (db.wallets.filter (fun w => decide (w.name ≠ w0.name))).length = _
      rw [← List.countP_eq_length_filter]
    rw [hlen1]
    omega

/-- Witness for C4: re-announcing `w2` for site `A` on the two-wallet
store `seqDB2`. -/
theorem C4_reannounce_replaces_witness :
    ∃ d db', client_wallet ⟨.jsonObj (some "wallet_created")
        (some { TxData.empty with
          wallet_name := some "w2",
          site_name := some "A",
          description := some "newest" }), ⟨none, none⟩⟩ seqDB2 "u" =
      ({ success := true, message := some "Wallet created successfully",
         error := none, warning := (bvnPolicy (maskBvn none)).2,
         wallet_data := some d }, db') ∧
      db'.wallets.countP (pairP "w2" "A") = 1 ∧
      (∀ w ∈ db'.wallets, pairP "w2" "A" w = true → w = d) ∧
      d.wallet_name = "w2" ∧
      d.site_name = "A" ∧
      d.currency = "NGN" ∧
      d.account_number = none ∧
      d.account_type = "Wallet" ∧
      d.bank_code = none ∧
      d.bank_name = none ∧
      d.business_id = none ∧
      d.exchange_ref = none ∧
      d.description = some "newest" ∧
      d.bvn = (bvnPolicy (maskBvn none)).1 ∧
      (∀ w ∈ seqDB2.wallets, w.name ≠ d.name) ∧
      db'.wallets.filter (fun w => !(pairP "w2" "A" w)) =
        seqDB2.wallets.filter (fun w => !(pairP "w2" "A" w)) ∧
      db'.wallets.length = seqDB2.wallets.length :=
  C4_reannounce_replaces seqDB2 "u"
    { TxData.empty with
      wallet_name := some "w2",
      site_name := some "A",
      description := some "newest" } ⟨none, none⟩
    (by decide) (by decide) (by decide) (by unfold NamesNodup; decide)
    (by intro w hw; fin_cases hw <;> decide)

/-! ### Claims C8 and C10: handler boundary -/

lemma processEnvelope_shape (ev : Option String) (td : TxData) (db : DB)
    (u : String) :
    (∃ e db', processEnvelope ev td db u = (errResp e, db')) ∨
    (∃ d w db', processEnvelope ev td db u =
      ({ success := true, message := some "Wallet created successfully",
         error := none, warning := w, wallet_data := some d }, db')) := by
  unfold processEnvelope
  split
  · exact Or.inl ⟨_, _, rfl⟩
  · split
    · exact Or.inl ⟨_, _, rfl⟩
    · split
      · exact Or.inl ⟨_, _, rfl⟩
      · dsimp only
        split
        · exact Or.inl ⟨_, _, rfl⟩
        · exact Or.inr ⟨_, _, _, rfl⟩

lemma client_wallet_shape (req : Request) (db : DB) (u : String) :
    (∃ e db', client_wallet req db u = (errResp e, db')) ∨
    (∃ d w db', client_wallet req db u =
      ({ success := true, message := some "Wallet created successfully",
         error := none, warning := w, wallet_data := some d }, db')) := by
  obtain ⟨body, form⟩ := req
  cases body with
  | malformed =>
    unfold client_wallet
    dsimp only
    split
    · split
      · exact Or.inl ⟨_, _, rfl⟩
      · exact processEnvelope_shape _ _ db u
      · exact processEnvelope_shape _ _ db u
      · exact Or.inl ⟨_, _, rfl⟩
    · exact Or.inl ⟨_, _, rfl⟩
  | jsonFalsy => exact Or.inl ⟨_, _, rfl⟩
  | jsonObj ev d => exact processEnvelope_shape ev (d.getD TxData.empty) db u

/-- C8: the handler always yields a response dictionary: either a
success response with no error field, or `{success: false, error: msg}`;
an error raised by the write pipeline is caught at the boundary and
returned verbatim as the error string; and a malformed JSON body with
no valid form fallback yields the parse-failure responses. -/
theorem C8_uniform_error_boundary :
    (∀ req db u, ((client_wallet req db u).1.success = true ∧
        (client_wallet req db u).1.error = none) ∨
      ((client_wallet req db u).1.success = false ∧
        ∃ e, (client_wallet req db u).1.error = some e)) ∧
    (∀ td db u e, truthy td.wallet_name = true → truthy td.site_name = true →
      runInsert (match db.wallets.find?
          (pairP (td.wallet_name.getD "") (td.site_name.getD "")) with
        | some w0 => delete_doc db w0.name
        | none => db) u (buildWalletDoc td (bvnPolicy (maskBvn td.bvn)).1) = .error e →
      (processEnvelope (some "wallet_created") td db u).1 = errResp e) ∧
    (∀ db u form, ¬ (truthy form.event = true ∧ form.data.isSome = true) →
      client_wallet ⟨.malformed, form⟩ db u =
        (errResp "Invalid request format - no event/data found", db)) ∧
    (∀ db u ev, truthy ev = true →
      client_wallet ⟨.malformed, ⟨ev, some (.jsonStr none)⟩⟩ db u =
        (errResp "Invalid JSON in form data", db)) := by
  refine ⟨?_, ?_, ?_, ?_⟩
  · intro req db u
    rcases client_wallet_shape req db u with ⟨e, db', h⟩ | ⟨d, w, db', h⟩
    · exact Or.inr (by rw [h]; exact ⟨rfl, e, rfl⟩)
    · exact Or.inl (by rw [h]; exact ⟨rfl, rfl⟩)
  · intro td db u e hwn hsn herr
    unfold processEnvelope
    rw [if_neg (fun hc => hc rfl)]
    rw [if_neg (by simp [hwn])]
    rw [if_neg (by simp [hsn])]
    simp only [herr]
  · intro db u form hno
    show (if truthy form.event = true ∧ form.data.isSome = true
      then _ else _) = _
    rw [if_neg hno]
  · intro db u ev hev
    show (if truthy ev = true ∧ (some (FormDataVal.jsonStr none)).isSome = true
      then _ else _) = _
    rw [if_pos ⟨hev, rfl⟩]

/-- Witness for C8: the boundary facts at concrete inputs. -/
theorem C8_uniform_error_boundary_witness :
    (((client_wallet ⟨.malformed, ⟨none, none⟩⟩ DB.empty "u").1.success = true ∧
        (client_wallet ⟨.malformed, ⟨none, none⟩⟩ DB.empty "u").1.error = none) ∨
      ((client_wallet ⟨.malformed, ⟨none, none⟩⟩ DB.empty "u").1.success = false ∧
        ∃ e, (client_wallet ⟨.malformed, ⟨none, none⟩⟩ DB.empty "u").1.error =
          some e)) ∧
    client_wallet ⟨.malformed, ⟨none, none⟩⟩ DB.empty "u" =
      (errResp "Invalid request format - no event/data found", DB.empty) ∧
    client_wallet ⟨.malformed, ⟨some "wallet_created", some (.jsonStr none)⟩⟩
        DB.empty "u" = (errResp "Invalid JSON in form data", DB.empty) :=
  ⟨C8_uniform_error_boundary.1 ⟨.malformed, ⟨none, none⟩⟩ DB.empty "u",
   C8_uniform_error_boundary.2.2.1 DB.empty "u" ⟨none, none⟩ (by decide),
   C8_uniform_error_boundary.2.2.2 DB.empty "u" (some "wallet_created") (by decide)⟩

/-- C10: a well-formed JSON body that decodes to a falsy value (`{}`,
`null`, `false`, `0`) is rejected with the parse-failure message, with
no form fallback attempted and the datastore untouched. -/
theorem C10_falsy_json_rejected (req : Request) (db : DB) (u : String)
    (h : req.body = .jsonFalsy) :
    client_wallet req db u = (errResp "Could not parse request data", db) := by
  obtain ⟨body, form⟩ := req
  cases h
  rfl

/-- Witness for C10: a falsy JSON body is rejected even when the form
dict carries a decodable fallback, and the store is unchanged. -/
theorem C10_falsy_json_rejected_witness :
    client_wallet ⟨.jsonFalsy, ⟨some "wallet_created",
        some (.obj TxData.empty)⟩⟩ cexDB1 "u" =
      (errResp "Could not parse request data", cexDB1) :=
  C10_falsy_json_rejected
    ⟨.jsonFalsy, ⟨some "wallet_created", some (.obj TxData.empty)⟩⟩ cexDB1 "u" rfl

/-! ### Claim C9: the wallet-log handler (spec-modelled) -/

/-- C9 (spec-modelled): the wallet-log handler rejects a missing
`accountNumber` and an account number matching no wallet, leaving the
datastore untouched in both cases, and a log record is persisted only
when a wallet with the announced account number exists. -/
theorem C9_wallet_log_guards (ld : LogData) (r : RelayResult) (db : DB) :
    (truthy ld.accountNumber = false →
      wallet_log ld r db = (errResp "accountNumber is required", db)) ∧
    (∀ a, ld.accountNumber = some a → truthy ld.accountNumber = true →
      db.wallets.find? (fun w => decide (w.account_number = some a)) = none →
      wallet_log ld r db =
        (errResp ("Wallet with account number " ++ a ++ " does not exist"), db)) ∧
    ((wallet_log ld r db).2.logs ≠ db.logs →
      ∃ w, w ∈ db.wallets ∧
        w.account_number = some (ld.accountNumber.getD "")) := by
  refine ⟨?_, ?_, ?_⟩
  · intro hf
    unfold wallet_log
    rw [if_pos (by rw [hf])]
  · intro a ha ht hfind
    unfold wallet_log
    rw [if_neg (by rw [ht]; exact fun hc => absurd hc (by decide))]
    have hgd : ld.accountNumber.getD "" = a := by rw [ha]; rfl
    simp only [hgd, hfind]
  · intro hne
    unfold wallet_log at hne
    by_cases ht : truthy ld.accountNumber = false
    · rw [if_pos (by rw [ht])] at hne
      exact absurd rfl hne
    · rw [if_neg (fun hc => ht hc)] at hne
      dsimp only at hne
      rcases hfind : db.wallets.find?
          (fun w => decide (w.account_number = some (ld.accountNumber.getD ""))) with
        _ | w
      · rw [hfind] at hne
        exact absurd rfl hne
      · have hp := List.find?_some hfind
        exact ⟨w, List.mem_of_find?_eq_some hfind, of_decide_eq_true hp⟩

def logLD : LogData := ⟨some "0123", none, none, none, none, none, none⟩

/-- Witness for C9: a log event naming an account number no wallet has
is rejected with the unknown-wallet error on a concrete store. -/
theorem C9_wallet_log_guards_witness :
    wallet_log logLD ⟨200, true⟩ cexDB1 =
      (errResp ("Wallet with account number " ++ "0123" ++ " does not exist"),
       cexDB1) :=
  (C9_wallet_log_guards logLD ⟨200, true⟩ cexDB1).2.1 "0123" rfl (by decide)
    (by decide)

end BuypowerAdmin
